import Mathlib

/-!
Verification of the placement-and-wellness application core.

The development shallowly embeds the computational components documented in
the specification: the WellnessScorer (`calculateResilienceScore`,
`generateWellnessRecommendations`), the JobMatchAdvisor
(`analyzeJobMatch`), the sentiment wrapper (`analyzeMood`), the mock
ProfileStore (`createProfile` / `getProfile` / `updateProfile`) and the
sign-up sequences of the AuthGateway (mock and live mode).

JavaScript numbers are modelled exactly over `ℚ`; the JavaScript `Map` of
the mock stores is modelled as an association list where `set` prepends a
binding and `lookup` returns the newest one (observationally equivalent
for every read the code performs).  External collaborators (the identity
provider, the relational store, the HTTP fetch and `JSON.parse`) are
modelled as explicit outcome parameters, since their behaviour is outside
the repository.
-/

namespace Yukti

/-- JavaScript `x || d` on an optional numeric field: `undefined` and the
falsy number `0` both fall back to the default `d`. -/
def jsOrQ (x : Option ℚ) (d : ℚ) : ℚ :=
  match x with
  | none => d
  | some v => if v = 0 then d else v

/-- JavaScript `Math.round`: round half toward positive infinity. -/
def jsRound (x : ℚ) : ℤ :=
  ⌊x + 1 / 2⌋

/-- JavaScript `Math.max(0, Math.min(100, r))` over integers. -/
def clamp100 (r : ℤ) : ℤ :=
  max 0 (min 100 r)

/-! ## WellnessScorer (`MoodAnalysisService` in `ai-services.ts`) -/

/-- A mood log as consumed by `calculateResilienceScore`: only the three
numeric fields are read, each possibly absent (`log.mood_score || 5`). -/
structure MoodLog where
  mood_score : Option ℚ
  stress_level : Option ℚ
  energy_level : Option ℚ
deriving DecidableEq

/-- The field average the source computes with
`recentLogs.reduce((sum, log) => sum + (log.f || 5), 0) / recentLogs.length`. -/
def fieldAvg (f : MoodLog → Option ℚ) (logs : List MoodLog) : ℚ :=
  (logs.foldl (fun sum log => sum + jsOrQ (f log) 5) 0) / logs.length

/-- `MoodAnalysisService.calculateResilienceScore` from `ai-services.ts`:
window of the last 7 logs (`slice(-7)`), field averages with default 5,
weighted sum scaled by 10, rounded and clamped to `[0, 100]`. -/
def calculateResilienceScore (moodLogs : List MoodLog) : ℤ :=
  if moodLogs.length = 0 then 50
  else
    let recentLogs := moodLogs.drop (moodLogs.length - 7)
    if recentLogs.length = 0 then 50
    else
      let avgMood := fieldAvg MoodLog.mood_score recentLogs
      let avgStress := fieldAvg MoodLog.stress_level recentLogs
      let avgEnergy := fieldAvg MoodLog.energy_level recentLogs
      let resilienceScore :=
        jsRound ((avgMood * (4 / 10) + (10 - avgStress) * (3 / 10)
          + avgEnergy * (3 / 10)) * 10)
      clamp100 resilienceScore

/-- A mood log is valid when every present field lies in the documented
`1..10` range (in particular it is nonzero, so the JavaScript `|| 5`
default only fires on absent fields). -/
def MoodLog.valid (log : MoodLog) : Prop :=
  (∀ q ∈ log.mood_score, 1 ≤ q ∧ q ≤ 10) ∧
  (∀ q ∈ log.stress_level, 1 ≤ q ∧ q ≤ 10) ∧
  (∀ q ∈ log.energy_level, 1 ≤ q ∧ q ≤ 10)

instance (log : MoodLog) : Decidable log.valid := by
  unfold MoodLog.valid; infer_instance

/-- The arithmetic mean of a field over a window, any missing value
defaulting to 5 — the spec-side phrasing of the average. -/
def specMean (f : MoodLog → Option ℚ) (logs : List MoodLog) : ℚ :=
  ((logs.map (fun log => (f log).getD 5)).sum) / logs.length

/-- The two supportive-action messages appended when mood < 4. -/
def lowMoodMsgs : List String :=
  ["Consider talking to a counselor or trusted friend",
   "Try engaging in activities you enjoy"]

/-- The three stress-management messages appended when stress > 7. -/
def highStressMsgs : List String :=
  ["Practice deep breathing or meditation",
   "Take regular breaks from work/study",
   "Consider time management techniques"]

/-- The three energy-management messages appended when energy < 4. -/
def lowEnergyMsgs : List String :=
  ["Ensure you\x27re getting adequate sleep",
   "Try light exercise or a short walk",
   "Check your nutrition and hydration"]

/-- The two positive-reinforcement messages used when no rule matched. -/
def positiveMsgs : List String :=
  ["Keep up the great work on your wellness!",
   "Continue your current healthy habits"]

/-- `MoodAnalysisService.generateWellnessRecommendations` from
`ai-services.ts`: three independent threshold rules append their message
sets; if the accumulated list is empty, the positive set is returned. -/
def generateWellnessRecommendations (moodScore stressLevel energyLevel : ℚ) :
    List String :=
  let recommendations : List String := []
  let recommendations :=
    if moodScore < 4 then recommendations ++ lowMoodMsgs else recommendations
  let recommendations :=
    if stressLevel > 7 then recommendations ++ highStressMsgs
    else recommendations
  let recommendations :=
    if energyLevel < 4 then recommendations ++ lowEnergyMsgs
    else recommendations
  if recommendations.length = 0 then positiveMsgs else recommendations

/-! ## JobMatchAdvisor (`OpenAIService.analyzeJobMatch` in `ai-services.ts`)

The external completion travels through `fetch` and then `JSON.parse`.
Both are platform functions outside the repository, so the embedding takes
their combined outcome as input: either the request failed (any
network/HTTP failure thrown by `makeRequest`), or a message content string
was obtained and `JSON.parse` on it either failed or produced a JSON
value. -/

/-- A JSON value, the possible results of `JSON.parse`. -/
inductive Json where
  | null : Json
  | bool (b : Bool) : Json
  | num (q : ℚ) : Json
  | str (s : String) : Json
  | arr (xs : List Json) : Json
  | obj (fields : List (String × Json)) : Json

/-- Field lookup on a JSON object: `j.name` (first binding wins, as
`JSON.parse` keeps the last duplicate key — duplicate keys do not occur in
the modelled responses). -/
def Json.lookupField (fields : List (String × Json)) (name : String) :
    Option Json :=
  match fields with
  | [] => none
  | (k, v) :: rest => if k = name then some v else Json.lookupField rest name

/-- JavaScript truthiness of a JSON value (`null`, `false`, `0` and the
empty string are falsy). -/
def Json.truthy : Json → Bool
  | .null => false
  | .bool b => b
  | .num q => decide (q ≠ 0)
  | .str s => decide (s ≠ "")
  | .arr _ => true
  | .obj _ => true

/-- JavaScript `ToNumber` on a JSON value, `none` standing for `NaN`.
Non-numeric strings, arrays and objects are abstracted as `NaN`; no
modelled response carries a score of those shapes. -/
def Json.toNumber : Json → Option ℚ
  | .null => some 0
  | .bool b => some (if b then 1 else 0)
  | .num q => some q
  | .str _ => none
  | .arr _ => none
  | .obj _ => none

/-- `Math.min(100, x)` where `x` may be `NaN` (`none`): any comparison
with `NaN` yields `NaN`. -/
def jsMin100 : Option ℚ → Option ℚ
  | none => none
  | some q => some (min 100 q)

/-- `Math.max(0, x)` where `x` may be `NaN`. -/
def jsMax0 : Option ℚ → Option ℚ
  | none => none
  | some q => some (max 0 q)

/-- Outcome of `JSON.parse` on the message content. -/
inductive ParseOutcome where
  | failed : ParseOutcome
  | parsed (j : Json) : ParseOutcome

/-- Outcome of the whole external call: `makeRequest` threw, or a content
string was obtained and parsed with the given outcome. -/
inductive CompletionOutcome where
  | netFailure : CompletionOutcome
  | completion (p : ParseOutcome) : CompletionOutcome

/-- The advisor's result record `{ score, reasons }`.  `score` is an
optional rational, `none` standing for `NaN`; `reasons` is the JSON array
the code returns unchanged (or a default list of strings). -/
structure MatchResult where
  score : Option ℚ
  reasons : List Json

/-- `result.score || 50` followed by `Math.max(0, Math.min(100, ·))`:
an absent or falsy `score` field falls back to 50 before clamping. -/
def Json.scoreOf (fields : List (String × Json)) : Option ℚ :=
  let raw :=
    match Json.lookupField fields "score" with
    | none => Json.num 50
    | some v => if v.truthy then v else Json.num 50
  jsMax0 (jsMin100 raw.toNumber)

/-- `Array.isArray(result.reasons) ? result.reasons : ['General skill alignment']`. -/
def Json.reasonsOf (fields : List (String × Json)) : List Json :=
  match Json.lookupField fields "reasons" with
  | some (.arr xs) => xs
  | _ => [.str "General skill alignment"]

/-- `OpenAIService.analyzeJobMatch` from `ai-services.ts` as a function of
the external outcome.  A thrown request is caught by the outer handler; a
parse failure by the inner one.  `JSON.parse` may also return a non-object
(`null`, number, string, …): property access on `null` throws a
`TypeError` inside the same inner `try`, while on the other primitives it
yields `undefined`, so the defaults apply. -/
def analyzeJobMatch : CompletionOutcome → MatchResult
  | .netFailure =>
      ⟨some 50, [.str "Job matching service temporarily unavailable"]⟩
  | .completion .failed =>
      ⟨some 50, [.str "Unable to analyze match at this time"]⟩
  | .completion (.parsed .null) =>
      ⟨some 50, [.str "Unable to analyze match at this time"]⟩
  | .completion (.parsed (.obj fields)) =>
      ⟨Json.scoreOf fields, Json.reasonsOf fields⟩
  | .completion (.parsed _) =>
      ⟨jsMax0 (jsMin100 (Json.num 50).toNumber),
       [.str "General skill alignment"]⟩

/-! ## Sentiment wrapper (`MoodAnalysisService.analyzeMood` in `ai-services.ts`) -/

/-- JavaScript property access `j.name`: throws (`error`) on `null`,
yields `undefined` (`none`) on primitives and arrays. -/
def jsProp (j : Json) (name : String) : Except Unit (Option Json) :=
  match j with
  | .null => .error ()
  | .obj fs => .ok (Json.lookupField fs name)
  | _ => .ok none

/-- `x.score || d` for a property access result: `undefined` and falsy
values fall back to the default. -/
def jsPropOr (p : Option Json) (d : Json) : Json :=
  match p with
  | none => d
  | some v => if v.truthy then v else d

/-- JavaScript `>` between possibly-`NaN` numbers: false when either side
is `NaN`. -/
def jsGt (a b : Option ℚ) : Bool :=
  match a, b with
  | some x, some y => decide (x > y)
  | _, _ => false

/-- `(elem.score || 0)` coerced to a number for the reduce comparison. -/
def elemScore (j : Json) : Except Unit (Option ℚ) := do
  let p ← jsProp j "score"
  pure (jsPropOr p (Json.num 0)).toNumber

/-- `data[0].reduce((prev, curr) => (prev.score || 0) > (curr.score || 0) ? prev : curr)`:
`reduce` without an initial value throws on an empty array and returns a
singleton's sole element without invoking the callback. -/
def reduceMaxScore : List Json → Except Unit Json
  | [] => .error ()
  | x :: xs =>
      xs.foldlM (fun prev curr => do
        let ps ← elemScore prev
        let cs ← elemScore curr
        pure (if jsGt ps cs then prev else curr)) x

/-- The sentiment record `{ sentiment, confidence }`; confidence `none`
stands for `NaN`. -/
structure MoodSentiment where
  sentiment : String
  confidence : Option ℚ
deriving DecidableEq

/-- The neutral default `{ sentiment: 'neutral', confidence: 0.5 }`. -/
def neutralMood : MoodSentiment :=
  ⟨"neutral", some (1 / 2)⟩

/-- Replace the first occurrence of a pattern, as the JavaScript
`String.replace` with a string argument does. -/
def replaceFirst (s pat : String) : String :=
  match s.splitOn pat with
  | [] => s
  | [x] => x
  | x :: rest => x ++ String.intercalate pat rest

/-- Build the returned record from the reduce winner:
`(result.label || 'neutral').toLowerCase().replace('label_', '')` (calling
`toLowerCase` on a truthy non-string throws) and
`Math.round((result.score || 0.5) * 100) / 100`. -/
def buildSentiment (r : Json) : Except Unit MoodSentiment := do
  let labelProp ← jsProp r "label"
  let labelVal := jsPropOr labelProp (Json.str "neutral")
  let labelStr ←
    match labelVal with
    | .str s => Except.ok s
    | _ => Except.error ()
  let sentiment := replaceFirst labelStr.toLower "label_"
  let scoreProp ← jsProp r "score"
  let scoreVal := jsPropOr scoreProp (Json.num (1 / 2))
  let confidence := scoreVal.toNumber.map (fun q => (jsRound (q * 100) : ℚ) / 100)
  pure ⟨sentiment, confidence⟩

/-- JavaScript `String.trim()`: strip leading and trailing whitespace
(structurally on the character list). -/
def jsTrim (s : String) : String :=
  ⟨(((s.data.dropWhile Char.isWhitespace).reverse.dropWhile
      Char.isWhitespace).reverse)⟩

/-- Outcome of the sentiment HTTP call: the fetch threw or the response
was not ok or its body failed to parse (`failure`), or a JSON body was
obtained. -/
inductive SentimentOutcome where
  | failure : SentimentOutcome
  | ok (data : Json) : SentimentOutcome

/-- `MoodAnalysisService.analyzeMood` from `ai-services.ts` as a function
of the external outcome.  The second component records whether the HTTP
request was issued at all.  Any exception inside the `try` resolves to the
neutral default. -/
def analyzeMood (apiKey text : String) (net : SentimentOutcome) :
    MoodSentiment × Bool :=
  if apiKey = "" then (neutralMood, false)
  else if text = "" ∨ jsTrim text = "" then (neutralMood, false)
  else
    match net with
    | .failure => (neutralMood, true)
    | .ok data =>
      match data with
      | .arr (first :: _) =>
        match first with
        | .arr elems =>
          match (do buildSentiment (← reduceMaxScore elems) :
              Except Unit MoodSentiment) with
          | .error _ => (neutralMood, true)
          | .ok r => (r, true)
        | _ => (neutralMood, true)
      | _ => (neutralMood, true)

/-! ## Mock ProfileStore (`dbHelpers` in `supabase.ts`, development mode)

`crypto.randomUUID()` and `new Date().toISOString()` are environment
inputs, passed as the `genId` / `now` parameters. -/

/-- Association-list lookup, standing for `Map.get` / `Map.has`. -/
def assocGet {α : Type} : List (String × α) → String → Option α
  | [], _ => none
  | (k, v) :: rest, key => if k = key then some v else assocGet rest key

/-- `Map.set`: the new binding shadows any older one. -/
def assocSet {α : Type} (st : List (String × α)) (k : String) (v : α) :
    List (String × α) :=
  (k, v) :: st

/-- `Partial<Profile>`: every field possibly absent. -/
structure PartialProfile where
  id : Option String
  email : Option String
  full_name : Option String
  role : Option String
  phone : Option String
  avatar_url : Option String
  created_at : Option String
  updated_at : Option String
deriving DecidableEq

/-- A record as stored by the mock backend: the spread of the input with
`id`, `created_at` and `updated_at` overwritten. -/
structure StoredProfile where
  id : String
  email : Option String
  full_name : Option String
  role : Option String
  phone : Option String
  avatar_url : Option String
  created_at : String
  updated_at : String
deriving DecidableEq

/-- The `{ data, error }` result shape every helper returns. -/
structure DbResult (α : Type) where
  data : Option α
  error : Option String
deriving DecidableEq

/-- The mock `profiles` map. -/
def ProfileStore : Type := List (String × StoredProfile)

/-- `x || d` on an optional string: absent and empty both default. -/
def jsOrStr (x : Option String) (d : String) : String :=
  match x with
  | none => d
  | some s => if s = "" then d else s

/-- `dbHelpers.createProfile` (development branch): spread the input,
take `userData.id || crypto.randomUUID()` as the key and stamp both
timestamps; no duplicate check is performed before `Map.set`. -/
def createProfile (genId now : String) (st : ProfileStore)
    (userData : PartialProfile) : ProfileStore × DbResult StoredProfile :=
  let profile : StoredProfile :=
    { id := jsOrStr userData.id genId
      email := userData.email
      full_name := userData.full_name
      role := userData.role
      phone := userData.phone
      avatar_url := userData.avatar_url
      created_at := now
      updated_at := now }
  (assocSet st profile.id profile, ⟨some profile, none⟩)

/-- `dbHelpers.getProfile` (development branch). -/
def getProfile (st : ProfileStore) (userId : String) :
    DbResult StoredProfile :=
  match assocGet st userId with
  | some profile => ⟨some profile, none⟩
  | none => ⟨none, some "Profile not found"⟩

/-- `dbHelpers.updateProfile` (development branch): merge the updates over
the existing record (`{ ...existing, ...updates, updated_at: now }`) and
store it back under the same key; a missing id is an error and the store
is left untouched. -/
def updateProfile (now : String) (st : ProfileStore) (userId : String)
    (updates : PartialProfile) : ProfileStore × DbResult StoredProfile :=
  match assocGet st userId with
  | none => (st, ⟨none, some "Profile not found"⟩)
  | some existing =>
      let updated : StoredProfile :=
        { id := updates.id.getD existing.id
          email := updates.email <|> existing.email
          full_name := updates.full_name <|> existing.full_name
          role := updates.role <|> existing.role
          phone := updates.phone <|> existing.phone
          avatar_url := updates.avatar_url <|> existing.avatar_url
          created_at := updates.created_at.getD existing.created_at
          updated_at := now }
      (assocSet st userId updated, ⟨some updated, none⟩)

/-! ## AuthGateway — mock sign-up (`authService.signUp`, development branch) -/

/-- The `SignUpData` payload of both `auth` modules. -/
structure SignUpData where
  full_name : String
  role : String
  college_name : Option String
  company_name : Option String
deriving DecidableEq

/-- The mock identity record built by `createMockUser`. -/
structure MockUser where
  id : String
  email : String
  created_at : String
  updated_at : String
  meta_full_name : String
  meta_role : String
deriving DecidableEq

/-- The base profile record built by `createMockUser`. -/
structure AuthProfile where
  id : String
  email : String
  full_name : String
  role : String
  created_at : String
  updated_at : String
deriving DecidableEq

/-- The per-email entry of `mockStorage.users`:
`{ user, password: '', profile }`. -/
structure UserRec where
  user : MockUser
  password : String
  profile : AuthProfile
deriving DecidableEq

/-- The whole mock auth state: `mockStorage.users`,
`mockStorage.profiles` and `mockStorage.currentUser`. -/
structure AuthStore where
  users : List (String × UserRec)
  profiles : List (String × AuthProfile)
  currentUser : Option MockUser
deriving DecidableEq

/-- The session object `{ user }`. -/
structure AuthSession where
  user : MockUser
deriving DecidableEq

/-- The success payload `{ user, session: { user } }`. -/
structure AuthPayload where
  user : MockUser
  session : AuthSession
deriving DecidableEq

/-- `createMockUser` from the development `auth` module: builds the user
and profile records and stores them under the email and the generated id. -/
def createMockUser (genId now : String) (st : AuthStore) (email : String)
    (userData : SignUpData) : AuthStore × MockUser × AuthProfile :=
  let user : MockUser :=
    ⟨genId, email, now, now, userData.full_name, userData.role⟩
  let profile : AuthProfile :=
    ⟨genId, email, userData.full_name, userData.role, now, now⟩
  ({ users := assocSet st.users email ⟨user, "", profile⟩
     profiles := assocSet st.profiles genId profile
     currentUser := st.currentUser },
   user, profile)

/-- `authService.signUp` (development branch): reject an email already in
`mockStorage.users`, otherwise create the mock user, make it current and
return `{ user, session: { user } }`.  The role-specific profile data the
code then assembles is only `console.log`-ged, never stored. -/
def signUpMock (genId now : String) (st : AuthStore)
    (email password : String) (userData : SignUpData) :
    AuthStore × DbResult AuthPayload :=
  if (assocGet st.users email).isSome then
    (st, ⟨none, some "User already registered"⟩)
  else
    let created := createMockUser genId now st email userData
    let st2 := { created.1 with currentUser := some created.2.1 }
    (st2, ⟨some ⟨created.2.1, ⟨created.2.1⟩⟩, none⟩)

/-! ## AuthGateway — live sign-up (`authService.signUp` in
`project/src/lib/auth.ts`)

The identity provider and the three inserts are external collaborators;
their outcomes are the `LiveEnv` input.  The embedding performs no
compensating call: like the source, a failed insert after a successful
identity creation is only written to the console log. -/

/-- The identity record returned by the provider. -/
structure LiveUser where
  id : String
  email : String
deriving DecidableEq

/-- `authData` as returned by `supabase.auth.signUp`. -/
structure LiveAuthData where
  user : Option LiveUser
deriving DecidableEq

/-- Outcomes of the four external calls the live sign-up makes. -/
structure LiveEnv where
  authError : Option String
  authData : LiveAuthData
  profileInsertError : Option String
  studentInsertError : Option String
  companyInsertError : Option String
deriving DecidableEq

/-- JavaScript truthiness of an optional string (`userData.college_name`):
absent and empty are falsy. -/
def jsTruthyStr (x : Option String) : Bool :=
  match x with
  | none => false
  | some s => s != ""

/-- `authService.signUp` from `project/src/lib/auth.ts`: abort on an
identity-provider error or a missing user; afterwards every insert
failure is only appended to the console-error log and the call returns
`{ data: authData, error: null }`. -/
def signUpLive (env : LiveEnv) (email password : String)
    (userData : SignUpData) : DbResult LiveAuthData × List String :=
  match env.authError with
  | some e => (⟨none, some e⟩, ["Auth signup error: " ++ e])
  | none =>
    match env.authData.user with
    | none => (⟨none, some "User creation failed"⟩, [])
    | some _ =>
      let log1 : List String :=
        match env.profileInsertError with
        | some e => ["Profile creation error: " ++ e]
        | none => []
      let log2 : List String :=
        if userData.role == "student" && jsTruthyStr userData.college_name then
          match env.studentInsertError with
          | some e => log1 ++ ["Student profile creation error: " ++ e]
          | none => log1
        else log1
      let log3 : List String :=
        if userData.role == "company" && jsTruthyStr userData.company_name then
          match env.companyInsertError with
          | some e => log2 ++ ["Company profile creation error: " ++ e]
          | none => log2
        else log2
      (⟨some env.authData, none⟩, log3)

/-! ## Lemmas -/

/-- Folding the `|| 5` sums equals summing the `getD 5` map as long as no
present field is the falsy `0`. -/
theorem foldl_jsOrQ_eq_sum (f : MoodLog → Option ℚ) (logs : List MoodLog)
    (h : ∀ log ∈ logs, ∀ q ∈ f log, q ≠ 0) (a : ℚ) :
    logs.foldl (fun sum log => sum + jsOrQ (f log) 5) a
      = a + ((logs.map fun log => (f log).getD 5).sum) := by
  induction logs generalizing a with
  | nil => simp
  | cons x xs ih =>
    simp only [List.foldl_cons, List.map_cons, List.sum_cons]
    rw [ih (fun log hl q hq => h log (List.mem_cons_of_mem _ hl) q hq)]
    have hx : jsOrQ (f x) 5 = (f x).getD 5 := by
      cases hfx : f x with
      | none => simp [jsOrQ]
      | some q =>
        have : q ≠ 0 := h x (List.mem_cons_self _ _) q (by simp [hfx])
        simp [jsOrQ, this]
    rw [hx]; ring

/-- On a window with no falsy field, the source's reduce-average is the
arithmetic mean with default 5. -/
theorem fieldAvg_eq_specMean (f : MoodLog → Option ℚ) (logs : List MoodLog)
    (h : ∀ log ∈ logs, ∀ q ∈ f log, q ≠ 0) :
    fieldAvg f logs = specMean f logs := by
  unfold fieldAvg specMean
  rw [foldl_jsOrQ_eq_sum f logs h 0, zero_add]

/-! ## Claims -/

/-- C1: on every list of valid mood logs, `calculateResilienceScore`
returns 50 when the list is empty and otherwise
`round((avgMood*0.4 + (10-avgStress)*0.3 + avgEnergy*0.3) * 10)` clamped
to `[0,100]`, where the averages are the arithmetic means over the last
(at most) 7 entries with any missing field defaulting to 5. -/
theorem calculateResilienceScore_spec (l : List MoodLog)
    (hval : ∀ log ∈ l, log.valid) :
    calculateResilienceScore l =
      if l = [] then 50
      else
        clamp100 (jsRound
          ((specMean MoodLog.mood_score (l.drop (l.length - 7)) * (4 / 10)
            + (10 - specMean MoodLog.stress_level (l.drop (l.length - 7)))
              * (3 / 10)
            + specMean MoodLog.energy_level (l.drop (l.length - 7))
              * (3 / 10)) * 10)) := by
  by_cases hl : l = []
  · subst hl; simp [calculateResilienceScore]
  · have hlen : ¬ l.length = 0 := by
      simpa [List.length_eq_zero] using hl
    have hw : ∀ log ∈ l.drop (l.length - 7), log.valid := fun log hm =>
      hval log (List.drop_subset _ _ hm)
    have hnz : ∀ f : MoodLog → Option ℚ,
        (∀ log : MoodLog, log.valid → ∀ q ∈ f log, 1 ≤ q ∧ q ≤ 10) →
        ∀ log ∈ l.drop (l.length - 7), ∀ q ∈ f log, q ≠ 0 := by
      intro f hf log hm q hq
      have h1 := (hf log (hw log hm) q hq).1
      intro h0
      rw [h0] at h1
      norm_num at h1
    have hrec : ¬ (l.drop (l.length - 7)).length = 0 := by
      rw [List.length_drop]; omega
    rw [calculateResilienceScore, if_neg hlen, if_neg hl]
    simp only [hrec, if_false, if_neg hrec]
    rw [fieldAvg_eq_specMean _ _ (hnz _ (fun log hv => hv.1)),
      fieldAvg_eq_specMean _ _ (hnz _ (fun log hv => hv.2.1)),
      fieldAvg_eq_specMean _ _ (hnz _ (fun log hv => hv.2.2))]

/-- C1 witness: the theorem applied to a concrete three-log history. -/
theorem calculateResilienceScore_spec_witness :
    (∀ log ∈ [(⟨some 8, some 2, none⟩ : MoodLog), ⟨some 6, some 3, some 7⟩,
        ⟨none, some 10, some 1⟩], log.valid) ∧
    calculateResilienceScore [(⟨some 8, some 2, none⟩ : MoodLog),
        ⟨some 6, some 3, some 7⟩, ⟨none, some 10, some 1⟩] =
      if ([(⟨some 8, some 2, none⟩ : MoodLog), ⟨some 6, some 3, some 7⟩,
          ⟨none, some 10, some 1⟩] : List MoodLog) = [] then 50
      else
        clamp100 (jsRound
          ((specMean MoodLog.mood_score
              ([(⟨some 8, some 2, none⟩ : MoodLog), ⟨some 6, some 3, some 7⟩,
                ⟨none, some 10, some 1⟩].drop (3 - 7)) * (4 / 10)
            + (10 - specMean MoodLog.stress_level
              ([(⟨some 8, some 2, none⟩ : MoodLog), ⟨some 6, some 3, some 7⟩,
                ⟨none, some 10, some 1⟩].drop (3 - 7))) * (3 / 10)
            + specMean MoodLog.energy_level
              ([(⟨some 8, some 2, none⟩ : MoodLog), ⟨some 6, some 3, some 7⟩,
                ⟨none, some 10, some 1⟩].drop (3 - 7)) * (3 / 10)) * 10)) :=
  ⟨by decide, calculateResilienceScore_spec _ (by decide)⟩

/-- C2: `generateWellnessRecommendations` evaluates the three threshold
rules independently and concatenates every matching rule's message set
(two low-mood, three stress, three energy messages), falling back to the
two positive messages when no rule matches; in particular `(3, 2, 3)`
yields the low-mood set followed by the low-energy set, and `(8, 8, 8)`
yields only the stress set. -/
theorem generateWellnessRecommendations_rules :
    (∀ m s e : ℚ, generateWellnessRecommendations m s e =
      if m < 4 ∨ s > 7 ∨ e < 4 then
        (if m < 4 then lowMoodMsgs else []) ++
        (if s > 7 then highStressMsgs else []) ++
        (if e < 4 then lowEnergyMsgs else [])
      else positiveMsgs) ∧
    lowMoodMsgs.length = 2 ∧ highStressMsgs.length = 3 ∧
    lowEnergyMsgs.length = 3 ∧ positiveMsgs.length = 2 ∧
    generateWellnessRecommendations 3 2 3 = lowMoodMsgs ++ lowEnergyMsgs ∧
    generateWellnessRecommendations 8 8 8 = highStressMsgs := by
  refine ⟨fun m s e => ?_, by decide, by decide, by decide, by decide,
    by decide, by decide⟩
  unfold generateWellnessRecommendations
  by_cases h1 : m < 4 <;> by_cases h2 : s > 7 <;> by_cases h3 : e < 4 <;>
    simp [h1, h2, h3, lowMoodMsgs, highStressMsgs, lowEnergyMsgs,
      positiveMsgs]

/-- C3: a network/request failure and an unparseable message content each
yield exactly `{ score: 50, reasons: [one fallback string] }`; since
`analyzeJobMatch` is a total function into `MatchResult`, no error
reaches the caller. -/
theorem analyzeJobMatch_fallback :
    analyzeJobMatch .netFailure =
      ⟨some 50, [.str "Job matching service temporarily unavailable"]⟩ ∧
    analyzeJobMatch (.completion .failed) =
      ⟨some 50, [.str "Unable to analyze match at this time"]⟩ :=
  ⟨rfl, rfl⟩

/-- C4 counterexample: an external object with the in-bounds numeric score
`0` is answered with score 50, not with `max 0 (min 100 0) = 0`, because
`result.score || 50` treats the falsy `0` as absent. -/
theorem analyzeJobMatch_zero_score_counterexample :
    (analyzeJobMatch (.completion (.parsed (.obj
        [("score", Json.num 0), ("reasons", Json.arr [Json.str "solid"])])))).score
      = some 50 ∧
    some (max 0 (min 100 (0 : ℚ))) = some (0 : ℚ) ∧ (50 : ℚ) ≠ 0 := by
  refine ⟨?_, by norm_num, by norm_num⟩
  simp [analyzeJobMatch, Json.scoreOf, Json.lookupField, Json.truthy,
    Json.toNumber, jsMin100, jsMax0]
  norm_num

/-- C4 amended: for an external object whose numeric `score` field is
nonzero (zero is JavaScript-falsy and is replaced by the default 50),
the returned score is `max 0 (min 100 s)` — clamped even out of bounds —
and the returned reasons are the parsed array when `reasons` is an array
and the one-element default list otherwise. -/
theorem analyzeJobMatch_numeric_score (fields : List (String × Json))
    (s : ℚ) (hs : Json.lookupField fields "score" = some (Json.num s))
    (hnz : s ≠ 0) :
    (analyzeJobMatch (.completion (.parsed (.obj fields)))).score
        = some (max 0 (min 100 s)) ∧
    ((∃ xs, Json.lookupField fields "reasons" = some (.arr xs) ∧
        (analyzeJobMatch (.completion (.parsed (.obj fields)))).reasons = xs) ∨
      ((∀ xs, Json.lookupField fields "reasons" ≠ some (.arr xs)) ∧
        (analyzeJobMatch (.completion (.parsed (.obj fields)))).reasons
          = [.str "General skill alignment"])) := by
  constructor
  · simp [analyzeJobMatch, Json.scoreOf, hs, Json.truthy, hnz,
      Json.toNumber, jsMin100, jsMax0]
  · rcases hr : Json.lookupField fields "reasons" with _ | j
    · exact Or.inr ⟨by simp [hr], by simp [analyzeJobMatch, Json.reasonsOf, hr]⟩
    · cases j with
      | arr xs =>
          exact Or.inl ⟨xs, rfl, by simp [analyzeJobMatch, Json.reasonsOf, hr]⟩
      | null =>
          exact Or.inr ⟨by simp [hr], by simp [analyzeJobMatch, Json.reasonsOf, hr]⟩
      | bool b =>
          exact Or.inr ⟨by simp [hr], by simp [analyzeJobMatch, Json.reasonsOf, hr]⟩
      | num q =>
          exact Or.inr ⟨by simp [hr], by simp [analyzeJobMatch, Json.reasonsOf, hr]⟩
      | str t =>
          exact Or.inr ⟨by simp [hr], by simp [analyzeJobMatch, Json.reasonsOf, hr]⟩
      | obj fs =>
          exact Or.inr ⟨by simp [hr], by simp [analyzeJobMatch, Json.reasonsOf, hr]⟩

/-- C4 witness: the amended theorem applied to a response whose score 120
exceeds the bound and whose reasons are a proper array. -/
theorem analyzeJobMatch_numeric_score_witness :
    Json.lookupField [("score", Json.num 120),
        ("reasons", Json.arr [Json.str "solid"])] "score"
      = some (Json.num 120) ∧ (120 : ℚ) ≠ 0 ∧
    ((analyzeJobMatch (.completion (.parsed (.obj [("score", Json.num 120),
        ("reasons", Json.arr [Json.str "solid"])])))).score
        = some (max 0 (min 100 (120 : ℚ))) ∧
      ((∃ xs, Json.lookupField [("score", Json.num 120),
          ("reasons", Json.arr [Json.str "solid"])] "reasons"
            = some (.arr xs) ∧
          (analyzeJobMatch (.completion (.parsed (.obj
            [("score", Json.num 120),
             ("reasons", Json.arr [Json.str "solid"])])))).reasons = xs) ∨
        ((∀ xs, Json.lookupField [("score", Json.num 120),
            ("reasons", Json.arr [Json.str "solid"])] "reasons"
              ≠ some (.arr xs)) ∧
          (analyzeJobMatch (.completion (.parsed (.obj
            [("score", Json.num 120),
             ("reasons", Json.arr [Json.str "solid"])])))).reasons
            = [.str "General skill alignment"]))) :=
  ⟨by simp [Json.lookupField], by norm_num,
    analyzeJobMatch_numeric_score _ 120 (by simp [Json.lookupField])
      (by norm_num)⟩

/-- C5: creating a profile with no id supplied stores it under the
generated fresh id with both timestamps stamped and no error, and a
subsequent `getProfile` with that id returns exactly the stored record
(the input plus the generated id and timestamps) with no error. -/
theorem createProfile_getProfile_roundtrip (genId now : String)
    (st : ProfileStore) (userData : PartialProfile)
    (hid : userData.id = none) (hne : genId ≠ "")
    (hfresh : assocGet st genId = none) :
    (createProfile genId now st userData).2 =
      ⟨some { id := genId, email := userData.email,
              full_name := userData.full_name, role := userData.role,
              phone := userData.phone, avatar_url := userData.avatar_url,
              created_at := now, updated_at := now }, none⟩ ∧
    getProfile (createProfile genId now st userData).1 genId =
      ⟨some { id := genId, email := userData.email,
              full_name := userData.full_name, role := userData.role,
              phone := userData.phone, avatar_url := userData.avatar_url,
              created_at := now, updated_at := now }, none⟩ := by
  constructor
  · simp [createProfile, jsOrStr, hid]
  · simp [createProfile, getProfile, assocSet, assocGet, jsOrStr, hid]

/-- C5 witness: the round trip on a concrete store and input. -/
theorem createProfile_getProfile_roundtrip_witness :
    ((⟨none, some "a@x", some "A", some "student", none, none, none, none⟩ :
        PartialProfile).id = none) ∧ ("u9" : String) ≠ "" ∧
    assocGet ([] : ProfileStore) "u9" = none ∧
    ((createProfile "u9" "t1" ([] : ProfileStore)
        ⟨none, some "a@x", some "A", some "student", none, none, none, none⟩).2 =
      ⟨some { id := "u9", email := some "a@x", full_name := some "A",
              role := some "student", phone := none, avatar_url := none,
              created_at := "t1", updated_at := "t1" }, none⟩ ∧
    getProfile (createProfile "u9" "t1" ([] : ProfileStore)
        ⟨none, some "a@x", some "A", some "student", none, none, none,
          none⟩).1 "u9" =
      ⟨some { id := "u9", email := some "a@x", full_name := some "A",
              role := some "student", phone := none, avatar_url := none,
              created_at := "t1", updated_at := "t1" }, none⟩) :=
  ⟨rfl, by decide, rfl,
    createProfile_getProfile_roundtrip "u9" "t1" [] _ rfl (by decide) rfl⟩

/-- C6: for an id absent from the mock store, `updateProfile` returns
`NotFound` (`'Profile not found'`) with null data and returns the store
unchanged, and `getProfile` likewise returns `NotFound` with null data
rather than null-with-no-error. -/
theorem updateProfile_getProfile_missing (now : String) (st : ProfileStore)
    (userId : String) (updates : PartialProfile)
    (h : assocGet st userId = none) :
    updateProfile now st userId updates =
      (st, ⟨none, some "Profile not found"⟩) ∧
    getProfile st userId = ⟨none, some "Profile not found"⟩ := by
  constructor
  · simp [updateProfile, h]
  · simp [getProfile, h]

/-- C6 witness: the theorem applied to a one-record store and a missing
id. -/
theorem updateProfile_getProfile_missing_witness :
    assocGet ([("u1", (⟨"u1", some "a@x", none, none, none, none, "t0",
        "t0"⟩ : StoredProfile))] : ProfileStore) "u2" = none ∧
    (updateProfile "t1" [("u1", ⟨"u1", some "a@x", none, none, none, none,
        "t0", "t0"⟩)] "u2"
        ⟨none, some "b@x", none, none, none, none, none, none⟩ =
      ([("u1", ⟨"u1", some "a@x", none, none, none, none, "t0", "t0"⟩)],
        ⟨none, some "Profile not found"⟩) ∧
    getProfile [("u1", ⟨"u1", some "a@x", none, none, none, none, "t0",
        "t0"⟩)] "u2" = ⟨none, some "Profile not found"⟩) :=
  ⟨by decide, updateProfile_getProfile_missing "t1" _ "u2" _ (by decide)⟩

/-- C9 counterexample: creating over an id already in the store does not
return `AlreadyExists` — the call succeeds and the stored record under
that id is silently replaced by the new one. -/
theorem createProfile_duplicate_counterexample :
    (createProfile "gen" "t1"
        [("u1", (⟨"u1", some "old@x", none, none, none, none, "t0", "t0"⟩ :
          StoredProfile))]
        ⟨some "u1", some "new@x", none, none, none, none, none, none⟩).2.error
      = none ∧
    (createProfile "gen" "t1"
        [("u1", ⟨"u1", some "old@x", none, none, none, none, "t0", "t0"⟩)]
        ⟨some "u1", some "new@x", none, none, none, none, none,
          none⟩).2.data.isSome = true ∧
    assocGet (createProfile "gen" "t1"
        [("u1", ⟨"u1", some "old@x", none, none, none, none, "t0", "t0"⟩)]
        ⟨some "u1", some "new@x", none, none, none, none, none, none⟩).1 "u1"
      ≠ some ⟨"u1", some "old@x", none, none, none, none, "t0", "t0"⟩ := by
  refine ⟨rfl, rfl, ?_⟩
  decide

/-- C9 amended: `createProfile` performs no duplicate check — a create
whose input carries an id already present returns the new record with no
error and overwrites the binding for that id. -/
theorem createProfile_existing_id_overwrites (genId now : String)
    (st : ProfileStore) (userData : PartialProfile) (i : String)
    (hid : userData.id = some i) (hne : i ≠ "")
    (hex : (assocGet st i).isSome = true) :
    (createProfile genId now st userData).2 =
      ⟨some { id := i, email := userData.email,
              full_name := userData.full_name, role := userData.role,
              phone := userData.phone, avatar_url := userData.avatar_url,
              created_at := now, updated_at := now }, none⟩ ∧
    assocGet (createProfile genId now st userData).1 i =
      some { id := i, email := userData.email,
             full_name := userData.full_name, role := userData.role,
             phone := userData.phone, avatar_url := userData.avatar_url,
             created_at := now, updated_at := now } := by
  constructor
  · simp [createProfile, jsOrStr, hid, hne]
  · simp [createProfile, assocSet, assocGet, jsOrStr, hid, hne]

/-- C9 witness: the amended theorem applied to the concrete duplicate
create of the counterexample. -/
theorem createProfile_existing_id_overwrites_witness :
    ((⟨some "u1", some "new@x", none, none, none, none, none, none⟩ :
        PartialProfile).id = some "u1") ∧ ("u1" : String) ≠ "" ∧
    (assocGet ([("u1", (⟨"u1", some "old@x", none, none, none, none, "t0",
        "t0"⟩ : StoredProfile))] : ProfileStore) "u1").isSome = true ∧
    ((createProfile "gen" "t1"
        [("u1", ⟨"u1", some "old@x", none, none, none, none, "t0", "t0"⟩)]
        ⟨some "u1", some "new@x", none, none, none, none, none, none⟩).2 =
      ⟨some { id := "u1", email := some "new@x", full_name := none,
              role := none, phone := none, avatar_url := none,
              created_at := "t1", updated_at := "t1" }, none⟩ ∧
    assocGet (createProfile "gen" "t1"
        [("u1", ⟨"u1", some "old@x", none, none, none, none, "t0", "t0"⟩)]
        ⟨some "u1", some "new@x", none, none, none, none, none, none⟩).1 "u1"
      = some { id := "u1", email := some "new@x", full_name := none,
               role := none, phone := none, avatar_url := none,
               created_at := "t1", updated_at := "t1" }) :=
  ⟨rfl, by decide, rfl,
    createProfile_existing_id_overwrites "gen" "t1" _ _ "u1" rfl (by decide)
      rfl⟩

/-- C7: signing up with an email already in `mockStorage.users` returns
the `'User already registered'` error with null data and leaves the whole
auth state — users, profiles and the current user — exactly as it was, so
no identity, base profile or role-specific profile is created. -/
theorem signUpMock_already_registered (genId now : String) (st : AuthStore)
    (email password : String) (userData : SignUpData)
    (h : (assocGet st.users email).isSome = true) :
    signUpMock genId now st email password userData =
      (st, ⟨none, some "User already registered"⟩) := by
  simp [signUpMock, h]

/-- C7 witness: the theorem applied to a store already holding the email. -/
theorem signUpMock_already_registered_witness :
    (assocGet ([("a@x", (⟨⟨"u1", "a@x", "t0", "t0", "A", "student"⟩, "",
        ⟨"u1", "a@x", "A", "student", "t0", "t0"⟩⟩ : UserRec))])
      "a@x").isSome = true ∧
    signUpMock "u2" "t1"
        ⟨[("a@x", ⟨⟨"u1", "a@x", "t0", "t0", "A", "student"⟩, "",
          ⟨"u1", "a@x", "A", "student", "t0", "t0"⟩⟩)], [], none⟩
        "a@x" "pw" ⟨"B", "student", some "College", none⟩ =
      (⟨[("a@x", ⟨⟨"u1", "a@x", "t0", "t0", "A", "student"⟩, "",
          ⟨"u1", "a@x", "A", "student", "t0", "t0"⟩⟩)], [], none⟩,
        ⟨none, some "User already registered"⟩) :=
  ⟨by decide,
    signUpMock_already_registered "u2" "t1" _ "a@x" "pw" _ (by decide)⟩

/-- C8: in live mode, once the identity provider has created the user,
`signUp` returns `{ data: authData, error: null }` whatever the outcomes
of the base-profile and role-profile inserts; each insert failure is only
appended to the console-error log, and no compensating call exists in the
function, so the created identity is never rolled back. -/
theorem signUpLive_partial_failure (env : LiveEnv)
    (email password : String) (userData : SignUpData) (u : LiveUser)
    (hA : env.authError = none) (hU : env.authData.user = some u) :
    (signUpLive env email password userData).1 =
      ⟨some env.authData, none⟩ ∧
    (∀ e, env.profileInsertError = some e →
      ("Profile creation error: " ++ e) ∈
        (signUpLive env email password userData).2) ∧
    (∀ e, (userData.role == "student"
        && jsTruthyStr userData.college_name) = true →
      env.studentInsertError = some e →
      ("Student profile creation error: " ++ e) ∈
        (signUpLive env email password userData).2) ∧
    (∀ e, (userData.role == "company"
        && jsTruthyStr userData.company_name) = true →
      env.companyInsertError = some e →
      ("Company profile creation error: " ++ e) ∈
        (signUpLive env email password userData).2) := by
  refine ⟨?_, ?_, ?_, ?_⟩
  · simp [signUpLive, hA, hU]
  · intro e he
    rcases hs : env.studentInsertError with _ | s <;>
      rcases hc : env.companyInsertError with _ | c <;>
        simp only [signUpLive, hA, hU, he, hs, hc] <;>
        split_ifs <;> simp_all
  · intro e hcond he
    rcases hp : env.profileInsertError with _ | p <;>
      rcases hc : env.companyInsertError with _ | c <;>
        simp only [signUpLive, hA, hU, he, hp, hc] <;>
        split_ifs <;> simp_all
  · intro e hcond he
    rcases hp : env.profileInsertError with _ | p <;>
      rcases hs : env.studentInsertError with _ | s <;>
        simp only [signUpLive, hA, hU, he, hp, hs] <;>
        split_ifs <;> simp_all

/-- C8 witness: a student sign-up in which both the base-profile and the
student-profile inserts fail; the call still succeeds and both failures
are logged. -/
theorem signUpLive_partial_failure_witness :
    (⟨none, ⟨some ⟨"u1", "a@x"⟩⟩, some "db down", some "rls denied",
        none⟩ : LiveEnv).authError = none ∧
    (⟨none, ⟨some ⟨"u1", "a@x"⟩⟩, some "db down", some "rls denied",
        none⟩ : LiveEnv).authData.user = some ⟨"u1", "a@x"⟩ ∧
    ((signUpLive ⟨none, ⟨some ⟨"u1", "a@x"⟩⟩, some "db down",
        some "rls denied", none⟩ "a@x" "pw"
        ⟨"A", "student", some "College", none⟩).1 =
      ⟨some ⟨some ⟨"u1", "a@x"⟩⟩, none⟩ ∧
    (∀ e, (some "db down" : Option String) = some e →
      ("Profile creation error: " ++ e) ∈
        (signUpLive ⟨none, ⟨some ⟨"u1", "a@x"⟩⟩, some "db down",
          some "rls denied", none⟩ "a@x" "pw"
          ⟨"A", "student", some "College", none⟩).2) ∧
    (∀ e, ((("student" : String) == "student")
        && jsTruthyStr (some "College")) = true →
      (some "rls denied" : Option String) = some e →
      ("Student profile creation error: " ++ e) ∈
        (signUpLive ⟨none, ⟨some ⟨"u1", "a@x"⟩⟩, some "db down",
          some "rls denied", none⟩ "a@x" "pw"
          ⟨"A", "student", some "College", none⟩).2) ∧
    (∀ e, ((("student" : String) == "company")
        && jsTruthyStr (none : Option String)) = true →
      (none : Option String) = some e →
      ("Company profile creation error: " ++ e) ∈
        (signUpLive ⟨none, ⟨some ⟨"u1", "a@x"⟩⟩, some "db down",
          some "rls denied", none⟩ "a@x" "pw"
          ⟨"A", "student", some "College", none⟩).2)) :=
  ⟨rfl, rfl,
    signUpLive_partial_failure
      ⟨none, ⟨some ⟨"u1", "a@x"⟩⟩, some "db down", some "rls denied", none⟩
      "a@x" "pw" ⟨"A", "student", some "College", none⟩ ⟨"u1", "a@x"⟩
      rfl rfl⟩

/-- C10: for a text that is empty or all whitespace (`text.trim = ""`),
`analyzeMood` returns `{ sentiment: 'neutral', confidence: 0.5 }` and
issues no HTTP request, for every configured key and every would-be
network outcome. -/
theorem analyzeMood_blank_text (apiKey text : String)
    (net : SentimentOutcome) (h : jsTrim text = "") :
    analyzeMood apiKey text net = (⟨"neutral", some (1 / 2)⟩, false) := by
  unfold analyzeMood
  by_cases hk : apiKey = ""
  · simp [hk, neutralMood]
  · rw [if_neg hk, if_pos (Or.inr h)]
    rfl

/-- C10 witness: the theorem applied with a configured key, a whitespace
text and a network that would answer. -/
theorem analyzeMood_blank_text_witness :
    (jsTrim "  " = "") ∧
    analyzeMood "hf-key" "  " (.ok (Json.arr [])) =
      (⟨"neutral", some (1 / 2)⟩, false) :=
  ⟨by decide, analyzeMood_blank_text "hf-key" "  " _ (by decide)⟩

end Yukti
